import Mathlib

/-
Shallow embedding of the ticket auto-resolution decision engine of the
open-desk-mvp repository (the langserve_api package): the classifier
agent's team-match scoring and routing, the team cache, the retrieval
agent's similarity search, the auto-resolution agent's step executor and
the langgraph auto-resolution flow.

Modelling conventions: Python floats are modelled as rationals, Python
dicts and pydantic models as structures, Python exceptions as Except,
and every network or LLM call as an explicit outcome parameter threaded
into the function that performs it.  Field names follow the source.
-/

/-- Python str.lower, character by character. -/
def pyLower (s : String) : String := String.mk (s.data.map Char.toLower)

/-- Substring test on character lists: true when pat occurs contiguously in text. -/
def listHasInfix (pat : List Char) : List Char → Bool
  | [] => pat.isEmpty
  | c :: rest => pat.isPrefixOf (c :: rest) || listHasInfix pat rest

/-- Python `pat in text` on strings (substring containment). -/
def pyInStr (pat text : String) : Bool := listHasInfix pat.toList text.toList

/-- SimilarTicket as consumed by the classifier agent: the attributes the
classifier reads (auto_resolved, similarity_score, resolution_steps,
success_rate) on each similar-ticket record. -/
structure SimilarTicketD where
  ticket_id : String
  similarity_score : ℚ
  auto_resolved : Bool
  resolution_steps : Option (List String)
  success_rate : ℚ
deriving Repr, DecidableEq

/-- RequiredSkills (classifier_agent.py). -/
structure RequiredSkills where
  technical_level : String
  domain_knowledge : List String
  tools_expertise : List String
deriving Repr, DecidableEq

/-- The metadata dict of a team row, with the keys the classifier reads:
focus_area.value (absent key modelled as none), Skills, technical_level,
tags (each .get with its default). -/
structure TeamMeta where
  focus_area : Option String
  skills : List String
  technical_level : Option String
  tags : List String
deriving Repr, DecidableEq

/-- TeamData (classifier_agent.py); timestamps omitted. -/
structure TeamData where
  id : String
  name : String
  description : Option String
  metadata : TeamMeta
deriving Repr, DecidableEq

/-- TeamData.get_default_team: the synthetic General Support fallback team. -/
def TeamData.getDefaultTeam : TeamData :=
  { id := "default"
    name := "General Support"
    description := some "Default team for handling tickets when no other teams are available"
    metadata :=
      { focus_area := some "general"
        skills := ["general support"]
        technical_level := some "junior"
        tags := [] } }

/-- TicketMetadata fields read by the classifier. -/
structure TicketMetadataD where
  Issue_Category : String
  ticket_tags : List String
deriving Repr, DecidableEq

/-- TicketData fields read by the classifier. -/
structure TicketDataD where
  title : String
  description : String
  priority : String
  metadata : TicketMetadataD
deriving Repr, DecidableEq

/-- ClassifierAgent._calculate_team_match_score: focus-area match adds 0.4
(or 0.1 for a general-focus team), skills overlap adds 0.3 times the
matched fraction of required tools expertise, an exact technical-level
match adds 0.3, tag overlap adds 0.1 times the matched fraction of the
ticket tags, and the sum is clamped to at most 1. -/
def calculateTeamMatchScore (team : TeamData) (category : String)
    (required_skills : RequiredSkills) (ticket_tags : List String) : ℚ :=
  let score1 : ℚ :=
    if team.metadata.focus_area = some (pyLower category) then 0.4
    else if team.metadata.focus_area = some "general" then 0.1
    else 0
  let team_skills := team.metadata.skills.toFinset
  let required_skills_set := required_skills.tools_expertise.toFinset
  let score2 :=
    if required_skills_set ≠ ∅ ∧ team_skills ≠ ∅ then
      score1 + 0.3 * (((team_skills ∩ required_skills_set).card : ℚ) / (required_skills_set.card : ℚ))
    else score1
  let score3 :=
    if team.metadata.technical_level = some required_skills.technical_level then score2 + 0.3
    else score2
  let team_tags := team.metadata.tags.toFinset
  let ticket_tags_set := ticket_tags.toFinset
  let score4 :=
    if ticket_tags_set ≠ ∅ ∧ team_tags ≠ ∅ then
      score3 + 0.1 * (((team_tags ∩ ticket_tags_set).card : ℚ) / (ticket_tags_set.card : ℚ))
    else score3
  min score4 1

/-- Focus-area component of the team match score, for decomposition lemmas. -/
def focusAreaTerm (team : TeamData) (category : String) : ℚ :=
  if team.metadata.focus_area = some (pyLower category) then 0.4
  else if team.metadata.focus_area = some "general" then 0.1
  else 0

/-- Skills component of the team match score. -/
def skillsTerm (team : TeamData) (required_skills : RequiredSkills) : ℚ :=
  let team_skills := team.metadata.skills.toFinset
  let required_skills_set := required_skills.tools_expertise.toFinset
  if required_skills_set ≠ ∅ ∧ team_skills ≠ ∅ then
    0.3 * (((team_skills ∩ required_skills_set).card : ℚ) / (required_skills_set.card : ℚ))
  else 0

/-- Technical-level component of the team match score. -/
def technicalLevelTerm (team : TeamData) (required_skills : RequiredSkills) : ℚ :=
  if team.metadata.technical_level = some required_skills.technical_level then 0.3 else 0

/-- Tag-overlap component of the team match score. -/
def tagOverlapTerm (team : TeamData) (ticket_tags : List String) : ℚ :=
  let team_tags := team.metadata.tags.toFinset
  let ticket_tags_set := ticket_tags.toFinset
  if ticket_tags_set ≠ ∅ ∧ team_tags ≠ ∅ then
    0.1 * (((team_tags ∩ ticket_tags_set).card : ℚ) / (ticket_tags_set.card : ℚ))
  else 0

/-- ClassifierAgent._get_teams, cache-hit condition: Python truthiness of
the cache (non-None and non-empty), no force_refresh, and the TTL check
(abstracted into the cache_fresh flag). -/
def teamsCacheHit (cache : Option (List TeamData)) (cache_fresh force_refresh : Bool) : Bool :=
  !force_refresh && (match cache with | some c => !c.isEmpty | none => false) && cache_fresh

/-- ClassifierAgent._get_teams, store-consulting branch: empty result rows
degrade to the default team (without caching); a store error degrades to
the cached list when that is truthy and otherwise to the default team. -/
def getTeamsFetch (cache : Option (List TeamData)) (store : Except String (List TeamData)) :
    List TeamData × Option (List TeamData) :=
  match store with
  | .ok data => if data.isEmpty then ([TeamData.getDefaultTeam], cache) else (data, some data)
  | .error _ =>
    match cache with
    | some c => if c.isEmpty then ([TeamData.getDefaultTeam], cache) else (c, cache)
    | none => ([TeamData.getDefaultTeam], cache)

/-- ClassifierAgent._get_teams: returns the team list and the new cache
contents.  The store outcome (rows or an exception, including row-parsing
errors) is passed in explicitly. -/
def getTeams (cache : Option (List TeamData)) (cache_fresh force_refresh : Bool)
    (store : Except String (List TeamData)) : List TeamData × Option (List TeamData) :=
  if teamsCacheHit cache cache_fresh force_refresh then (cache.getD [], cache)
  else getTeamsFetch cache store

/-- Per-team scores, as built in _determine_routing_team. -/
def scoreTeams (teams : List TeamData) (category : String) (required_skills : RequiredSkills)
    (ticket_tags : List String) : List (TeamData × ℚ) :=
  teams.map (fun team => (team, calculateTeamMatchScore team category required_skills ticket_tags))

/-- Python max(..., key=score) over a non-empty list folded from a first
candidate: keeps the first element among maximal scores. -/
def pyMaxBySnd (best : TeamData × ℚ) : List (TeamData × ℚ) → TeamData × ℚ
  | [] => best
  | x :: rest => pyMaxBySnd (if best.2 < x.2 then x else best) rest

/-- _determine_routing_team without the auto-resolution override: score all
teams and pick the best; Python max raises on an empty list and the
surrounding except-handler returns the default team at 0.5. -/
def routeByScores (teams : List TeamData) (category : String) (required_skills : RequiredSkills)
    (ticket_tags : List String) : TeamData × ℚ :=
  match scoreTeams teams category required_skills ticket_tags with
  | [] => (TeamData.getDefaultTeam, 0.5)
  | x :: rest => pyMaxBySnd x rest

/-- ClassifierAgent._determine_routing_team, with the team list (the
_get_teams outcome) passed in explicitly. -/
def determineRoutingTeam (teams : List TeamData) (category : String)
    (required_skills : RequiredSkills) (ticket_tags : List String)
    (can_auto_resolve : Bool) : TeamData × ℚ :=
  if can_auto_resolve then
    match teams.filter (fun t => t.metadata.focus_area = some "auto_resolution") with
    | t :: _ => (t, 1)
    | [] => routeByScores teams category required_skills ticket_tags
  else routeByScores teams category required_skills ticket_tags

/-- The auto_resolvable_patterns table of
ClassifierAgent._analyze_auto_resolution_potential, in insertion order. -/
def autoResolvablePatterns : List (String × List String) :=
  [("password_reset", ["reset password", "forgot password", "change password"]),
   ("account_activation", ["activate account", "account activation"]),
   ("basic_troubleshooting", ["clear cache", "refresh browser", "restart application"])]

/-- ClassifierAgent._get_standard_resolution_steps. -/
def getStandardResolutionSteps (category : String) : List String :=
  if category = "password_reset" then
    ["Verify user identity", "Generate password reset link", "Send reset email",
     "Confirm reset completion"]
  else if category = "account_activation" then
    ["Verify account exists", "Generate activation link", "Send activation email",
     "Confirm activation"]
  else if category = "basic_troubleshooting" then
    ["Provide clear cache instructions", "Guide through browser refresh",
     "Verify issue resolution", "Offer additional support if needed"]
  else []

/-- Pattern stage of _analyze_auto_resolution_potential: the loop returns at
the first pattern row whose phrase list hits the lowercased title and
description and whose key equals the lowercased ticket category. -/
def analyzePatternCheck (ticket : TicketDataD) : Bool × ℚ × Option (List String) :=
  let text := pyLower ticket.title ++ " " ++ pyLower ticket.description
  match autoResolvablePatterns.find?
      (fun cp => cp.2.any (fun pat => pyInStr pat text) &&
        (pyLower ticket.metadata.Issue_Category == cp.1)) with
  | some cp => (true, 0.85, some (getStandardResolutionSteps cp.1))
  | none => (false, 0, none)

/-- ClassifierAgent._analyze_auto_resolution_potential: first the
similar-ticket check (first auto-resolved similar ticket with similarity
above 0.9), then the pattern stage, else a negative result. -/
def analyzeAutoResolutionPotential (ticket : TicketDataD)
    (similar_tickets : List SimilarTicketD) : Bool × ℚ × Option (List String) :=
  match similar_tickets.filter (fun t => t.auto_resolved) with
  | most_similar :: _ =>
    if most_similar.similarity_score > 0.9 then
      (true, most_similar.similarity_score, most_similar.resolution_steps)
    else analyzePatternCheck ticket
  | [] => analyzePatternCheck ticket

/-- A raw hit returned by the Chroma similarity backend: document id,
content and raw relevance score. -/
structure RawHit where
  doc_id : String
  content : String
  raw_score : ℚ
deriving Repr, DecidableEq

/-- An entry of the list built by VectorStore.find_similar_tickets. -/
structure SimEntry where
  ticket_id : String
  content : String
  similarity_score : ℚ
deriving Repr, DecidableEq

/-- VectorStore.find_similar_tickets: normalize each raw relevance score
via (score + 1) / 2 and keep the hits at or above score_threshold, in
backend order. -/
def vsFindSimilarTickets (score_threshold : ℚ) : List RawHit → List SimEntry
  | [] => []
  | h :: rest =>
    let similarity_score := (h.raw_score + 1) / 2
    if similarity_score ≥ score_threshold then
      { ticket_id := h.doc_id, content := h.content, similarity_score := similarity_score } ::
        vsFindSimilarTickets score_threshold rest
    else vsFindSimilarTickets score_threshold rest

/-- Comparison used to sort merged results by similarity score descending. -/
def simDescBool (a b : SimEntry) : Bool := decide (b.similarity_score ≤ a.similarity_score)

/-- RetrievalAgent.find_similar_tickets: query the open collection, extend
with the resolved collection when include_resolved, sort the merged list
by similarity score descending (Python list.sort is stable; so is
mergeSort) and keep the first n_results entries.  The subsequent
SimilarTicket construction copies ticket_id and similarity_score
unchanged, so the claims are stated on this list. -/
def retrievalFindSimilarTickets (openHits resolvedHits : List RawHit) (n_results : ℕ)
    (similarity_threshold : ℚ) (include_resolved : Bool) : List SimEntry :=
  let results := vsFindSimilarTickets similarity_threshold openHits ++
    (if include_resolved then vsFindSimilarTickets similarity_threshold resolvedHits else [])
  (results.mergeSort simDescBool).take n_results

/-- ResolutionStep (auto_resolution_agent.py); tool_args modelled as an
association list. -/
structure RStep where
  action : String
  reason : String
  tool_name : Option String
  tool_args : Option (List (String × String))
deriving Repr, DecidableEq

/-- A value returned by a tool: whether it is a dict, the value of its
"error" key when it is one (none when absent), and an opaque payload. -/
structure ToolRes where
  is_dict : Bool
  error_field : Option String
  payload : String
deriving Repr, DecidableEq

/-- The registered tool map: name to a callable from arguments to a result
or a raised exception; none for unregistered names. -/
abbrev ToolMap := String → Option (List (String × String) → Except String ToolRes)

/-- Outcome of AutoResolutionAgent.execute_resolution_step. -/
structure StepExecResult where
  success : Bool
  result : Option ToolRes
  error : Option String
deriving Repr

/-- AutoResolutionAgent.execute_resolution_step: a step without a tool is a
no-op success, an unregistered tool name is a structured failure, a tool
exception is caught into a structured failure. -/
def executeResolutionStep (tools : ToolMap) (step : RStep) : StepExecResult :=
  match step.tool_name with
  | none =>
    { success := true
      result := some { is_dict := false, error_field := none, payload := "No tool action needed" }
      error := none }
  | some name =>
    match tools name with
    | none => { success := false, result := none, error := some ("Tool " ++ name ++ " not found") }
    | some f =>
      match f (step.tool_args.getD []) with
      | .ok r => { success := true, result := some r, error := none }
      | .error e => { success := false, result := none, error := some e }

/-- ResolutionResult (auto_resolution_agent.py). -/
structure ResolutionResultD where
  success : Bool
  steps_taken : List RStep
  solution : Option String
  failure_reason : Option String
deriving Repr, DecidableEq

/-- The parsed analysis produced by analyze_resolution_steps. -/
structure AnalysisD where
  can_resolve : Bool
  confidence : ℚ
  steps : List RStep
  explanation : Option String
deriving Repr

/-- The step-execution loop of AutoResolutionAgent.resolve_ticket: execute
steps in order, recording each attempted step, and stop at the first
failure. -/
def resolveSteps (tools : ToolMap) (explanation : Option String) :
    List RStep → ResolutionResultD
  | [] => { success := true, steps_taken := [], solution := explanation, failure_reason := none }
  | step :: rest =>
    let r := executeResolutionStep tools step
    if r.success then
      let tail := resolveSteps tools explanation rest
      { tail with steps_taken := step :: tail.steps_taken }
    else
      { success := false
        steps_taken := [step]
        solution := none
        failure_reason := some ("Step failed: " ++ r.error.getD "None") }

/-- AutoResolutionAgent.resolve_ticket given the analysis outcome: an
analysis exception is caught into a failed result, a non-resolvable
analysis short-circuits, otherwise the steps run through resolveSteps. -/
def resolveTicket (tools : ToolMap) (analysis : Except String AnalysisD) : ResolutionResultD :=
  match analysis with
  | .error e => { success := false, steps_taken := [], solution := none, failure_reason := some e }
  | .ok a =>
    if a.can_resolve then resolveSteps tools a.explanation a.steps
    else
      { success := false
        steps_taken := []
        solution := none
        failure_reason := some "Ticket cannot be auto-resolved" }

/-- ClassificationDecision fields read by the flow. -/
structure ClassifyD where
  can_auto_resolve : Bool
  confidence_score : ℚ
  routing_team : TeamData
  reasoning : String
  needs_more_info : Bool
  auto_resolution_steps : Option (List String)
deriving Repr, DecidableEq

/-- The safe fallback decision built by the except-handler of
ClassifierAgent.classify_ticket. -/
def classifyFallback (e : String) : ClassifyD :=
  { can_auto_resolve := false
    confidence_score := 0.1
    routing_team := TeamData.getDefaultTeam
    reasoning := "Error during classification: " ++ e ++ ". Routing to general support."
    needs_more_info := true
    auto_resolution_steps := none }

/-- External outcomes consumed by one run of the auto-resolution flow:
the retrieval query (find_similar_tickets can raise), the classifier
body (everything inside classify_ticket's try block), the planning LLM
call of analyze_resolution_steps (ok none marks a JSON parse failure,
which is handled; ok (some a) a parsed analysis), and the tool map. -/
structure FlowEnv where
  retrieveOutcome : Except String (List SimilarTicketD)
  classifyOutcome : Except String ClassifyD
  planOutcome : Except String (Option AnalysisD)
  toolMap : ToolMap

/-- ClassifierAgent.classify_ticket at the flow boundary: the whole body is
inside a try block whose except-handler returns the safe fallback, so the
node is total. -/
def classifyTicketNode (env : FlowEnv) : ClassifyD :=
  match env.classifyOutcome with
  | .ok d => d
  | .error e => classifyFallback e

/-- AutoResolutionAgent.analyze_resolution_steps: a JSON parse failure is
converted into a non-resolvable analysis, any other error re-raises. -/
def analyzeResolutionSteps (env : FlowEnv) : Except String AnalysisD :=
  match env.planOutcome with
  | .error e => .error e
  | .ok none =>
    .ok { can_resolve := false, confidence := 0, steps := [],
          explanation := some "Failed to parse resolution steps" }
  | .ok (some a) => .ok a

/-- One recorded result of a flow execution step. -/
structure FlowStepRecord where
  step : RStep
  result : ToolRes
deriving Repr, DecidableEq

/-- AutoResolutionState threaded through the flow graph (the message
history field is omitted).  The steps field holds the contents of the
raw analysis JSON step dicts that plan_resolution stores: the flow never
coerces them to ResolutionStep objects, so Python attribute access on
them fails; that failure is modelled in flowExecuteStep. -/
structure FlowState where
  similar_tickets : List SimilarTicketD
  classification : Option ClassifyD
  current_step : ℕ
  steps : List RStep
  results : List FlowStepRecord
  final_resolution : Option ResolutionResultD
deriving Repr

/-- initialize_state (auto_resolution_flow.py). -/
def initializeStateD : FlowState :=
  { similar_tickets := []
    classification := none
    current_step := 0
    steps := []
    results := []
    final_resolution := none }

/-- Flow node find_similar_tickets: no handler around the retrieval call,
so a retrieval error propagates. -/
def flowRetrieve (env : FlowEnv) (s : FlowState) : Except String FlowState :=
  match env.retrieveOutcome with
  | .ok ts => .ok { s with similar_tickets := ts }
  | .error e => .error e

/-- Flow node classify_ticket: stores the decision and routes to resolve
or end on can_auto_resolve. -/
def flowClassify (env : FlowEnv) (s : FlowState) : String × FlowState :=
  let classification := classifyTicketNode env
  (if classification.can_auto_resolve then "resolve" else "end",
   { s with classification := some classification })

/-- Flow node plan_resolution: stores the raw analysis step dicts (their
contents, as RStep values; no ResolutionStep coercion happens here) and
resets current_step; an analyze error propagates (no handler). -/
def flowPlan (env : FlowEnv) (s : FlowState) : Except String FlowState :=
  match analyzeResolutionSteps env with
  | .ok a => .ok { s with steps := a.steps, current_step := 0 }
  | .error e => .error e

/-- The dispatch logic of the flow node execute_step, line by line, under
the premise that the stored steps are structured ResolutionStep values
on which the attribute accesses succeed: past the end of the plan it
routes to end; a step is executed only when its tool_name is set and
registered, in which case the tool runs (a raised tool exception
propagates, there is no handler here) and its result is appended to
results; otherwise nothing is recorded.  current_step always advances. -/
def flowExecuteStepTyped (env : FlowEnv) (s : FlowState) : Except String (String × FlowState) :=
  if h : s.current_step < s.steps.length then
    let step := s.steps.get ⟨s.current_step, h⟩
    let afterTool : Except String FlowState :=
      match step.tool_name with
      | some name =>
        match env.toolMap name with
        | some f =>
          match f (step.tool_args.getD []) with
          | .ok r => .ok { s with results := s.results ++ [{ step := step, result := r }] }
          | .error e => .error e
        | none => .ok s
      | none => .ok s
    match afterTool with
    | .error e => .error e
    | .ok s1 =>
      let s2 := { s1 with current_step := s1.current_step + 1 }
      .ok (if s2.current_step < s2.steps.length then "continue" else "end", s2)
  else .ok ("end", s)

/-- Flow node execute_step on the state the flow actually builds: the
steps stored by plan_resolution are raw dicts, so evaluating
step.tool_name on an in-range step raises AttributeError before any
tool lookup; only the past-the-end check (which precedes the access)
still routes to end. -/
def flowExecuteStep (_env : FlowEnv) (s : FlowState) : Except String (String × FlowState) :=
  if s.current_step < s.steps.length then
    .error "AttributeError: dict object has no attribute tool_name"
  else .ok ("end", s)

/-- The execute loop of the flow graph (the conditional continue edge),
driven by explicit fuel; one plan pass uses fuel steps.length + 1, which
is enough since current_step advances on every continue. -/
def flowExecLoop (env : FlowEnv) : ℕ → FlowState → Except String FlowState
  | 0, s => .ok s
  | fuel + 1, s =>
    match flowExecuteStep env s with
    | .error e => .error e
    | .ok (tag, s1) => if tag = "continue" then flowExecLoop env fuel s1 else .ok s1

/-- Python truthiness of the condition on a recorded step result: the
result counts as successful unless it is a dict whose error value is
truthy (present and non-empty). -/
def toolResOk (r : ToolRes) : Bool :=
  !r.is_dict || (match r.error_field with | none => true | some s => s.isEmpty)

/-- Flow node finalize_resolution: success is computed over the recorded
results only, conjoined with can_auto_resolve, and failure_reason looks
at the recorded results alone; but the ResolutionResult constructor
validates solution against Optional[str], and the value assigned is
classification.get with an auto_resolution_steps default of the empty
list, so a present steps list (or that default when the classification
dict is empty) raises ValidationError, while a None value passes and
leaves solution None. -/
def finalizeResolution (s : FlowState) : Except String FlowState :=
  let success := s.results.all (fun r => toolResOk r.result)
  let canAuto := match s.classification with | some d => d.can_auto_resolve | none => false
  match (match s.classification with | some d => d.auto_resolution_steps | none => some []) with
  | some _ => .error "ValidationError: solution: str type expected"
  | none =>
    .ok { s with
      final_resolution := some
        { success := success && canAuto
          steps_taken := s.steps
          solution := none
          failure_reason := if success then none
            else some "One or more resolution steps failed" } }

/-- The compiled flow graph: retrieve, classify, then either the
plan-execute-finalize path or finalize directly; stage errors (including
the AttributeError of execute_step and the ValidationError of
finalize_resolution) propagate out of ainvoke. -/
def runFlow (env : FlowEnv) (s0 : FlowState) : Except String FlowState :=
  match flowRetrieve env s0 with
  | .error e => .error e
  | .ok s1 =>
    match flowClassify env s1 with
    | (tag, s2) =>
      if tag = "resolve" then
        match flowPlan env s2 with
        | .error e => .error e
        | .ok s3 =>
          match flowExecLoop env (s3.steps.length + 1) s3 with
          | .error e => .error e
          | .ok s4 => finalizeResolution s4
      else finalizeResolution s2

/-- A run environment whose retrieval stage raises. -/
def c1Env : FlowEnv :=
  { retrieveOutcome := .error "connection failed"
    classifyOutcome := .error "unused"
    planOutcome := .error "unused"
    toolMap := fun _ => none }

/-- A password-reset ticket matching the pattern table, used with an empty
similar-ticket list. -/
def c2Ticket : TicketDataD :=
  { title := "Reset Password"
    description := "I forgot my password and need to reset it"
    priority := "low"
    metadata := { Issue_Category := "password_reset", ticket_tags := ["password", "reset"] } }

/-- A general-focus team with no skills listed and no tags. -/
def c3Team : TeamData :=
  { id := "g"
    name := "General Support Team"
    description := none
    metadata :=
      { focus_area := some "general", skills := [], technical_level := some "junior",
        tags := [] } }

/-- Required skills for the scorer counterexamples. -/
def c3Req : RequiredSkills :=
  { technical_level := "junior", domain_knowledge := ["general"], tools_expertise := ["x"] }

/-- A technical-focus team that matches nothing about a billing ticket. -/
def c4Team : TeamData :=
  { id := "t1"
    name := "Engineering"
    description := none
    metadata :=
      { focus_area := some "technical", skills := [], technical_level := some "senior",
        tags := [] } }

/-- Required skills that the c4Team does not satisfy. -/
def c4Req : RequiredSkills :=
  { technical_level := "junior", domain_knowledge := [], tools_expertise := ["x"] }

/-- A tool map registering exactly one tool. -/
def c7Tools : ToolMap := fun name =>
  if name = "reset_user_password" then
    some (fun _ =>
      .ok { is_dict := false, error_field := none,
            payload := "Password reset email sent successfully" })
  else none

/-- A three-step plan whose second step names an unregistered tool. -/
def c7Steps : List RStep :=
  [{ action := "Verify identity", reason := "required", tool_name := none, tool_args := none },
   { action := "Send reset", reason := "required", tool_name := some "unknown_tool",
     tool_args := none },
   { action := "Confirm", reason := "required", tool_name := none, tool_args := none }]

/-- An analysis that plans the three steps above. -/
def c7Analysis : AnalysisD :=
  { can_resolve := true, confidence := 0.9, steps := c7Steps,
    explanation := some "Reset the password" }

/-- An open-collection hit for ticket t1 with raw relevance 0.8. -/
def c8OpenHits : List RawHit := [{ doc_id := "t1", content := "printer issue", raw_score := 0.8 }]

/-- A resolved-collection hit for the same ticket t1 with raw relevance 0.6. -/
def c8ResolvedHits : List RawHit :=
  [{ doc_id := "t1", content := "printer issue", raw_score := 0.6 }]

/-- A team carrying tags, for the tag-monotonicity witness. -/
def c9Team : TeamData :=
  { id := "a"
    name := "Auto Resolution"
    description := none
    metadata :=
      { focus_area := some "auto_resolution", skills := ["automation"],
        technical_level := some "junior", tags := ["auto", "password"] } }

/-- A classification that allows auto-resolution. -/
def c10Classify : ClassifyD :=
  { can_auto_resolve := true
    confidence_score := 0.95
    routing_team := TeamData.getDefaultTeam
    reasoning := "auto"
    needs_more_info := false
    auto_resolution_steps := some ["Reset the password"] }

/-- A plan step bound to a tool name that is not registered. -/
def c10Step : RStep :=
  { action := "Reset", reason := "auto", tool_name := some "no_such_tool", tool_args := none }

/-- An analysis planning only the unknown-tool step. -/
def c10Analysis : AnalysisD :=
  { can_resolve := true, confidence := 0.9, steps := [c10Step], explanation := some "auto" }

/-- A run environment that classifies as auto-resolvable, plans the
unknown-tool step and registers no tools. -/
def c10Env : FlowEnv :=
  { retrieveOutcome := .ok []
    classifyOutcome := .ok c10Classify
    planOutcome := .ok (some c10Analysis)
    toolMap := fun _ => none }

/-- The flow state right after planning the unknown-tool step. -/
def c10FlowState : FlowState :=
  { similar_tickets := []
    classification := some c10Classify
    current_step := 0
    steps := [c10Step]
    results := []
    final_resolution := none }

/-- Helper: the store-consulting branch of _get_teams never yields an
empty list. -/
theorem getTeamsFetch_fst_ne_nil (cache : Option (List TeamData))
    (store : Except String (List TeamData)) : (getTeamsFetch cache store).1 ≠ [] := by
  cases store with
  | ok data =>
    by_cases h : data.isEmpty = true
    · simp [getTeamsFetch, h]
    · have hd : data ≠ [] := by
        cases data with
        | nil => simp at h
        | cons a l => simp
      simp [getTeamsFetch, h, hd]
  | error e =>
    cases cache with
    | some c =>
      by_cases h : c.isEmpty = true
      · simp [getTeamsFetch, h]
      · have hc : c ≠ [] := by
          cases c with
          | nil => simp at h
          | cons a l => simp
        simp [getTeamsFetch, h, hc]
    | none => simp [getTeamsFetch]

/-- C5: every call to _get_teams returns a non-empty list (the embedding is
total, so no exception escapes); when the store is consulted and returns
zero rows the result is exactly the default team; when the store is
consulted and raises, the result is the previously cached list when one
exists and the default team otherwise. -/
theorem C5_getTeams_nonempty_with_fallbacks (cache : Option (List TeamData))
    (cache_fresh force_refresh : Bool) (store : Except String (List TeamData)) :
    (getTeams cache cache_fresh force_refresh store).1 ≠ [] ∧
    (teamsCacheHit cache cache_fresh force_refresh = false → store = .ok [] →
      (getTeams cache cache_fresh force_refresh store).1 = [TeamData.getDefaultTeam]) ∧
    (teamsCacheHit cache cache_fresh force_refresh = false → ∀ e : String, store = .error e →
      (cache = none →
        (getTeams cache cache_fresh force_refresh store).1 = [TeamData.getDefaultTeam]) ∧
      ∀ c, cache = some c → c ≠ [] →
        (getTeams cache cache_fresh force_refresh store).1 = c) := by
  refine ⟨?_, ?_, ?_⟩
  · by_cases hhit : teamsCacheHit cache cache_fresh force_refresh = true
    · rcases cache with _ | c
      · simp [teamsCacheHit] at hhit
      · simp only [teamsCacheHit, Bool.and_eq_true, Bool.not_eq_true'] at hhit
        obtain ⟨⟨hf, hc⟩, hfr⟩ := hhit
        have hcne : c ≠ [] := by
          cases c with
          | nil => simp at hc
          | cons a l => simp
        simp [getTeams, teamsCacheHit, hf, hc, hfr, hcne]
    · have hhit2 : teamsCacheHit cache cache_fresh force_refresh = false :=
        Bool.eq_false_iff.mpr hhit
      simp only [getTeams, hhit2, Bool.false_eq_true, if_false]
      exact getTeamsFetch_fst_ne_nil cache store
  · intro hmiss hstore
    subst hstore
    simp [getTeams, hmiss, getTeamsFetch]
  · intro hmiss e hstore
    subst hstore
    constructor
    · intro hc
      subst hc
      simp [getTeams, hmiss, getTeamsFetch]
    · intro c hc hcne
      subst hc
      have hce : c.isEmpty = false := by
        cases c with
        | nil => exact absurd rfl hcne
        | cons a l => simp
      simp [getTeams, hmiss, getTeamsFetch, hce]

/-- Witness for C5 at a concrete input: no cache, store returning zero
rows; the call returns exactly the default team. -/
theorem C5_witness :
    teamsCacheHit none false false = false ∧
    (getTeams none false false (.ok ([] : List TeamData))).1 = [TeamData.getDefaultTeam] :=
  ⟨rfl, (C5_getTeams_nonempty_with_fallbacks none false false (.ok [])).2.1 rfl rfl⟩

/-- Helper: when every step of the plan succeeds, the resolve loop records
all steps, reports success and carries over the explanation. -/
theorem resolveSteps_of_all_success (tools : ToolMap) (expl : Option String) :
    ∀ steps : List RStep, (∀ st ∈ steps, (executeResolutionStep tools st).success = true) →
      resolveSteps tools expl steps =
        { success := true, steps_taken := steps, solution := expl, failure_reason := none }
  | [], _ => rfl
  | step :: rest, h => by
    have hs := h step (List.mem_cons_self _ _)
    have ih := resolveSteps_of_all_success tools expl rest
      (fun st hst => h st (List.mem_cons_of_mem _ hst))
    simp [resolveSteps, hs, ih]

/-- Helper: when the first failing step of the plan sits at index i, the
resolve loop stops there, keeping exactly the prefix through i. -/
theorem resolveSteps_first_failure (tools : ToolMap) (expl : Option String) :
    ∀ (steps : List RStep) (i : ℕ) (hi : i < steps.length),
      (∀ j (hj : j < i),
        (executeResolutionStep tools (steps.get ⟨j, lt_trans hj hi⟩)).success = true) →
      (executeResolutionStep tools (steps.get ⟨i, hi⟩)).success = false →
      resolveSteps tools expl steps =
        { success := false, steps_taken := steps.take (i + 1), solution := none,
          failure_reason := some ("Step failed: " ++
            (executeResolutionStep tools (steps.get ⟨i, hi⟩)).error.getD "None") }
  | [], i, hi => absurd hi (by simp)
  | step :: rest, 0, _ => by
    intro _ hfail
    simp only [List.get] at hfail
    simp [resolveSteps, hfail, List.get]
  | step :: rest, i + 1, hi => by
    intro hpre hfail
    have h0 : (executeResolutionStep tools step).success = true := hpre 0 (Nat.succ_pos i)
    have ih := resolveSteps_first_failure tools expl rest i (Nat.lt_of_succ_lt_succ hi)
      (fun j hj => hpre (j + 1) (Nat.succ_lt_succ hj)) hfail
    simp [resolveSteps, h0, ih, List.take_succ_cons]

/-- C7: resolve_ticket runs the plan strictly in order and stops at the
first failing step: steps_taken is the prefix through the failure
inclusive, success is false and failure_reason is set; if every step
succeeds, success is true and the solution comes from the analysis
explanation; a step with no bound tool succeeds; a step naming an
unregistered tool yields a structured failure, not an exception. -/
theorem C7_resolveTicket_stops_at_first_failure (tools : ToolMap) (a : AnalysisD)
    (hcan : a.can_resolve = true) :
    ((∀ st ∈ a.steps, (executeResolutionStep tools st).success = true) →
      resolveTicket tools (.ok a) =
        { success := true, steps_taken := a.steps, solution := a.explanation,
          failure_reason := none }) ∧
    (∀ i (hi : i < a.steps.length),
      (∀ j (hj : j < i),
        (executeResolutionStep tools (a.steps.get ⟨j, lt_trans hj hi⟩)).success = true) →
      (executeResolutionStep tools (a.steps.get ⟨i, hi⟩)).success = false →
      (resolveTicket tools (.ok a)).success = false ∧
      (resolveTicket tools (.ok a)).steps_taken = a.steps.take (i + 1) ∧
      (resolveTicket tools (.ok a)).failure_reason.isSome = true) ∧
    (∀ st : RStep, st.tool_name = none → (executeResolutionStep tools st).success = true) ∧
    (∀ (st : RStep) (nm : String), st.tool_name = some nm → tools nm = none →
      (executeResolutionStep tools st).success = false ∧
      (executeResolutionStep tools st).error = some ("Tool " ++ nm ++ " not found")) := by
  have hrt : resolveTicket tools (.ok a) = resolveSteps tools a.explanation a.steps := by
    simp [resolveTicket, hcan]
  refine ⟨?_, ?_, ?_, ?_⟩
  · intro hall
    rw [hrt, resolveSteps_of_all_success tools a.explanation a.steps hall]
  · intro i hi hpre hfail
    rw [hrt, resolveSteps_first_failure tools a.explanation a.steps i hi hpre hfail]
    simp
  · intro st hst
    simp [executeResolutionStep, hst]
  · intro st nm hst hnm
    simp [executeResolutionStep, hst, hnm]

/-- Witness for C7 at a concrete three-step plan whose second step fails:
steps_taken has length two and success is false. -/
theorem C7_witness :
    c7Analysis.can_resolve = true ∧
    (resolveTicket c7Tools (.ok c7Analysis)).success = false ∧
    (resolveTicket c7Tools (.ok c7Analysis)).steps_taken = c7Analysis.steps.take 2 ∧
    (resolveTicket c7Tools (.ok c7Analysis)).failure_reason.isSome = true := by
  have H := (C7_resolveTicket_stops_at_first_failure c7Tools c7Analysis rfl).2.1 1
    (by decide)
    (fun j hj => by
      have hj0 : j = 0 := Nat.lt_one_iff.mp hj
      subst hj0
      rfl)
    rfl
  exact ⟨rfl, H.1, H.2.1, H.2.2⟩

/-- Helper: the pattern stage reports auto-resolvable exactly when some
pattern row both hits the lowercased title and description and names the
lowercased ticket category. -/
theorem analyzePatternCheck_fst_iff (ticket : TicketDataD) :
    (analyzePatternCheck ticket).1 = true ↔
      ∃ cp ∈ autoResolvablePatterns,
        cp.2.any (fun pat =>
          pyInStr pat (pyLower ticket.title ++ " " ++ pyLower ticket.description)) = true ∧
        pyLower ticket.metadata.Issue_Category = cp.1 := by
  unfold analyzePatternCheck
  cases hfind : autoResolvablePatterns.find?
      (fun cp => cp.2.any (fun pat =>
          pyInStr pat (pyLower ticket.title ++ " " ++ pyLower ticket.description)) &&
        (pyLower ticket.metadata.Issue_Category == cp.1)) with
  | none =>
    simp only [hfind]
    rw [List.find?_eq_none] at hfind
    constructor
    · intro h
      simp at h
    · rintro ⟨cp, hmem, hany, heq⟩
      have hcp := hfind cp hmem
      simp [hany, heq] at hcp
  | some cp =>
    have hmem := List.mem_of_find?_eq_some hfind
    have hp := List.find?_some hfind
    simp only [Bool.and_eq_true, beq_iff_eq] at hp
    simp only [hfind]
    constructor
    · intro _
      exact ⟨cp, hmem, hp.1, hp.2⟩
    · intro _
      trivial

/-- C2 (amended): _analyze_auto_resolution_potential reports
can_auto_resolve exactly when the first auto-resolved similar ticket has
similarity above 0.9, or some auto-resolvable pattern phrase occurs in
the lowercased title and description while the lowercased category
equals that pattern key. -/
theorem C2_analyze_can_auto_resolve_iff (ticket : TicketDataD)
    (similar : List SimilarTicketD) :
    (analyzeAutoResolutionPotential ticket similar).1 = true ↔
      ((∃ t rest, similar.filter (fun s => s.auto_resolved) = t :: rest ∧
          t.similarity_score > 0.9) ∨
       ∃ cp ∈ autoResolvablePatterns,
         cp.2.any (fun pat =>
           pyInStr pat (pyLower ticket.title ++ " " ++ pyLower ticket.description)) = true ∧
         pyLower ticket.metadata.Issue_Category = cp.1) := by
  unfold analyzeAutoResolutionPotential
  cases hf : similar.filter (fun s => s.auto_resolved) with
  | nil =>
    rw [analyzePatternCheck_fst_iff]
    simp
  | cons t rest =>
    by_cases hsc : t.similarity_score > 0.9
    · simp [hsc]
    · simp only [hsc, if_false]
      rw [analyzePatternCheck_fst_iff]
      simp [hsc]

/-- Counterexample for C2: a password-reset ticket with an empty
similar-ticket list (so the auto-resolved subset is empty) is still
classified auto-resolvable at confidence 0.85 through the pattern table,
with the standard steps as the plan. -/
theorem C2_counterexample :
    ([] : List SimilarTicketD).filter (fun s => s.auto_resolved) = [] ∧
    analyzeAutoResolutionPotential c2Ticket [] =
      (true, 0.85, some (getStandardResolutionSteps "password_reset")) :=
  ⟨rfl, rfl⟩

/-- Helper: every entry built by the vector-store search scores at or
above the threshold. -/
theorem vsFind_mem_score_ge (t : ℚ) (hits : List RawHit) :
    ∀ e ∈ vsFindSimilarTickets t hits, t ≤ e.similarity_score := by
  induction hits with
  | nil => intro e h; simp [vsFindSimilarTickets] at h
  | cons h rest ih =>
    intro e hmem
    simp only [vsFindSimilarTickets] at hmem
    split at hmem
    · rcases List.mem_cons.mp hmem with he | he
      · subst he
        assumption
      · exact ih e he
    · exact ih e hmem

/-- Helper: the descending score comparison is transitive. -/
theorem simDescBool_trans (a b c : SimEntry) (hab : simDescBool a b = true)
    (hbc : simDescBool b c = true) : simDescBool a c = true := by
  simp only [simDescBool, decide_eq_true_eq] at hab hbc ⊢
  exact le_trans hbc hab

/-- Helper: the descending score comparison is total. -/
theorem simDescBool_total (a b : SimEntry) : (simDescBool a b || simDescBool b a) = true := by
  simp only [simDescBool, Bool.or_eq_true, decide_eq_true_eq]
  exact le_total b.similarity_score a.similarity_score

/-- C6: find_similar returns only entries whose normalized score, computed
as (raw + 1) / 2, is at least the threshold; the list is sorted by score
descending; and its length is at most n_results. -/
theorem C6_retrieval_threshold_sorted_bounded (openHits resolvedHits : List RawHit)
    (n_results : ℕ) (similarity_threshold : ℚ) (include_resolved : Bool) :
    (∀ e ∈ retrievalFindSimilarTickets openHits resolvedHits n_results similarity_threshold
        include_resolved, similarity_threshold ≤ e.similarity_score) ∧
    List.Pairwise (fun a b : SimEntry => b.similarity_score ≤ a.similarity_score)
      (retrievalFindSimilarTickets openHits resolvedHits n_results similarity_threshold
        include_resolved) ∧
    (retrievalFindSimilarTickets openHits resolvedHits n_results similarity_threshold
      include_resolved).length ≤ n_results := by
  simp only [retrievalFindSimilarTickets]
  refine ⟨?_, ?_, ?_⟩
  · intro e he
    have he1 := List.take_subset _ _ he
    have he2 := (List.mergeSort_perm _ simDescBool).mem_iff.mp he1
    rcases List.mem_append.mp he2 with hm | hm
    · exact vsFind_mem_score_ge _ _ e hm
    · cases include_resolved with
      | true => exact vsFind_mem_score_ge _ _ e (by simpa using hm)
      | false => simp at hm
  · have hs := @List.sorted_mergeSort SimEntry simDescBool simDescBool_trans simDescBool_total
      (vsFindSimilarTickets similarity_threshold openHits ++
        (if include_resolved then vsFindSimilarTickets similarity_threshold resolvedHits else []))
    have hp := List.Pairwise.sublist (List.take_sublist n_results _) hs
    exact hp.imp (fun hab => by simpa [simDescBool, decide_eq_true_eq] using hab)
  · exact List.length_take_le _ _

/-- Helper: concrete evaluation of the open-collection search for the
duplicate-id scenario. -/
theorem c8_open_eval : vsFindSimilarTickets 0.7 c8OpenHits =
    [{ ticket_id := "t1", content := "printer issue", similarity_score := 0.9 }] := by
  norm_num [vsFindSimilarTickets, c8OpenHits]

/-- Helper: concrete evaluation of the resolved-collection search for the
duplicate-id scenario. -/
theorem c8_resolved_eval : vsFindSimilarTickets 0.7 c8ResolvedHits =
    [{ ticket_id := "t1", content := "printer issue", similarity_score := 0.8 }] := by
  norm_num [vsFindSimilarTickets, c8ResolvedHits]

/-- Counterexample for C8: the same ticket id above threshold in both
collections produces two entries in the merged result, so the list is
not deduplicated. -/
theorem C8_counterexample :
    (retrievalFindSimilarTickets c8OpenHits c8ResolvedHits 3 0.7 true).countP
      (fun e => e.ticket_id == "t1") = 2 := by
  simp only [retrievalFindSimilarTickets, c8_open_eval, c8_resolved_eval, if_true]
  rw [List.take_of_length_le (by rw [(List.mergeSort_perm _ _).length_eq]; norm_num)]
  rw [(List.mergeSort_perm _ simDescBool).countP_eq]
  rfl

/-- C8 (amended): the merged result is not deduplicated: whenever a ticket
id survives the threshold in both the open and the resolved collection
and n_results does not truncate, the returned list carries at least two
entries for that id. -/
theorem C8_no_dedup_two_entries (openHits resolvedHits : List RawHit) (n : ℕ) (t : ℚ)
    (tid : String)
    (h1 : ∃ e ∈ vsFindSimilarTickets t openHits, e.ticket_id = tid)
    (h2 : ∃ e ∈ vsFindSimilarTickets t resolvedHits, e.ticket_id = tid)
    (hn : (vsFindSimilarTickets t openHits).length +
      (vsFindSimilarTickets t resolvedHits).length ≤ n) :
    2 ≤ (retrievalFindSimilarTickets openHits resolvedHits n t true).countP
      (fun e => e.ticket_id == tid) := by
  simp only [retrievalFindSimilarTickets, if_true]
  rw [List.take_of_length_le
    (by rw [(List.mergeSort_perm _ _).length_eq, List.length_append]; exact hn)]
  rw [(List.mergeSort_perm _ simDescBool).countP_eq, List.countP_append]
  obtain ⟨e1, he1, hid1⟩ := h1
  obtain ⟨e2, he2, hid2⟩ := h2
  have ha : 0 < (vsFindSimilarTickets t openHits).countP (fun e => e.ticket_id == tid) :=
    List.countP_pos_iff.mpr ⟨e1, he1, by simp [hid1]⟩
  have hb : 0 < (vsFindSimilarTickets t resolvedHits).countP (fun e => e.ticket_id == tid) :=
    List.countP_pos_iff.mpr ⟨e2, he2, by simp [hid2]⟩
  omega

/-- Witness for C8's amended statement at the concrete duplicate-id
scenario. -/
theorem C8_witness :
    (∃ e ∈ vsFindSimilarTickets 0.7 c8OpenHits, e.ticket_id = "t1") ∧
    (∃ e ∈ vsFindSimilarTickets 0.7 c8ResolvedHits, e.ticket_id = "t1") ∧
    (vsFindSimilarTickets 0.7 c8OpenHits).length +
      (vsFindSimilarTickets 0.7 c8ResolvedHits).length ≤ 3 ∧
    2 ≤ (retrievalFindSimilarTickets c8OpenHits c8ResolvedHits 3 0.7 true).countP
      (fun e => e.ticket_id == "t1") := by
  have h1 : ∃ e ∈ vsFindSimilarTickets 0.7 c8OpenHits, e.ticket_id = "t1" := by
    simp [c8_open_eval]
  have h2 : ∃ e ∈ vsFindSimilarTickets 0.7 c8ResolvedHits, e.ticket_id = "t1" := by
    simp [c8_resolved_eval]
  have hn : (vsFindSimilarTickets 0.7 c8OpenHits).length +
      (vsFindSimilarTickets 0.7 c8ResolvedHits).length ≤ 3 := by
    simp [c8_open_eval, c8_resolved_eval]
  exact ⟨h1, h2, hn, C8_no_dedup_two_entries c8OpenHits c8ResolvedHits 3 0.7 "t1" h1 h2 hn⟩

/-- Helper: the team match score decomposes as the clamped sum of its four
independent components. -/
theorem calculateTeamMatchScore_eq (team : TeamData) (category : String)
    (required_skills : RequiredSkills) (ticket_tags : List String) :
    calculateTeamMatchScore team category required_skills ticket_tags =
      min (focusAreaTerm team category + skillsTerm team required_skills +
        technicalLevelTerm team required_skills + tagOverlapTerm team ticket_tags) 1 := by
  simp only [calculateTeamMatchScore, focusAreaTerm, skillsTerm, technicalLevelTerm,
    tagOverlapTerm]
  split_ifs <;> ring_nf

/-- Helper: the focus-area component is nonnegative. -/
theorem focusAreaTerm_nonneg (team : TeamData) (category : String) :
    0 ≤ focusAreaTerm team category := by
  unfold focusAreaTerm
  split_ifs <;> norm_num

/-- Helper: the skills component is nonnegative. -/
theorem skillsTerm_nonneg (team : TeamData) (required_skills : RequiredSkills) :
    0 ≤ skillsTerm team required_skills := by
  simp only [skillsTerm]
  split_ifs
  · positivity
  · exact le_refl 0

/-- Helper: the technical-level component is nonnegative. -/
theorem technicalLevelTerm_nonneg (team : TeamData) (required_skills : RequiredSkills) :
    0 ≤ technicalLevelTerm team required_skills := by
  unfold technicalLevelTerm
  split_ifs <;> norm_num

/-- Helper: the tag-overlap component is nonnegative. -/
theorem tagOverlapTerm_nonneg (team : TeamData) (ticket_tags : List String) :
    0 ≤ tagOverlapTerm team ticket_tags := by
  simp only [tagOverlapTerm]
  split_ifs
  · positivity
  · exact le_refl 0

/-- C3 (amended): the team match score is the sum of a focus-area component
(0.4 on an exact lowercased-category match, 0.1 for a general-focus team,
with no unclear-ticket handling), a skills component (0.3 times the
matched fraction of the required tools expertise), a technical-level
component (0.3 on equality) and a tag-overlap component (0.1 times the
matched fraction of the ticket tags), clamped to at most 1; the result
always lies in [0, 1]. -/
theorem C3_team_match_score_decomposition (team : TeamData) (category : String)
    (required_skills : RequiredSkills) (ticket_tags : List String) :
    calculateTeamMatchScore team category required_skills ticket_tags =
      min (focusAreaTerm team category + skillsTerm team required_skills +
        technicalLevelTerm team required_skills + tagOverlapTerm team ticket_tags) 1 ∧
    0 ≤ calculateTeamMatchScore team category required_skills ticket_tags ∧
    calculateTeamMatchScore team category required_skills ticket_tags ≤ 1 := by
  refine ⟨calculateTeamMatchScore_eq team category required_skills ticket_tags, ?_, ?_⟩
  · rw [calculateTeamMatchScore_eq]
    have h1 := focusAreaTerm_nonneg team category
    have h2 := skillsTerm_nonneg team required_skills
    have h3 := technicalLevelTerm_nonneg team required_skills
    have h4 := tagOverlapTerm_nonneg team ticket_tags
    apply le_min (by linarith) (by norm_num)
  · rw [calculateTeamMatchScore_eq]
    exact min_le_right _ _

/-- Counterexample for C3: a one-tag unknown-category ticket against a
general-focus team scores 0.4 (0.1 focus plus 0.3 technical level), not
the 0.8 the claim's formula predicts for an unclear ticket on a
general-focus team. -/
theorem C3_counterexample :
    calculateTeamMatchScore c3Team "unknown" c3Req ["help"] = 0.4 ∧
    (0.4 : ℚ) ≠ 0.8 := by
  constructor
  · rw [calculateTeamMatchScore_eq]
    have h1 : focusAreaTerm c3Team "unknown" = 0.1 := by
      unfold focusAreaTerm
      rw [if_neg (by decide), if_pos (by decide)]
    have h2 : skillsTerm c3Team c3Req = 0 := by
      simp only [skillsTerm]
      rw [if_neg (by decide)]
    have h3 : technicalLevelTerm c3Team c3Req = 0.3 := by
      unfold technicalLevelTerm
      rw [if_pos (by decide)]
    have h4 : tagOverlapTerm c3Team ["help"] = 0 := by
      simp only [tagOverlapTerm]
      rw [if_neg (by decide)]
    rw [h1, h2, h3, h4]
    norm_num
  · norm_num

/-- Helper: appending a team-known tag to the ticket tags never shrinks the
tag-overlap component. -/
theorem tagOverlapTerm_mono (team : TeamData) (ticket_tags : List String) (g : String)
    (hg : g ∈ team.metadata.tags) :
    tagOverlapTerm team ticket_tags ≤ tagOverlapTerm team (ticket_tags ++ [g]) := by
  have hgK : g ∈ team.metadata.tags.toFinset := List.mem_toFinset.mpr hg
  have hKne : team.metadata.tags.toFinset ≠ ∅ := by
    intro h
    rw [h] at hgK
    exact absurd hgK (Finset.not_mem_empty g)
  have hT2 : (ticket_tags ++ [g]).toFinset = insert g ticket_tags.toFinset := by
    rw [List.toFinset_append]
    simp [Finset.union_comm, Finset.insert_eq]
  simp only [tagOverlapTerm]
  rw [hT2]
  by_cases hTe : ticket_tags.toFinset = ∅
  · rw [if_neg (by simp [hTe]), if_pos ⟨by simp, hKne⟩]
    positivity
  · rw [if_pos ⟨hTe, hKne⟩, if_pos ⟨by simp, hKne⟩]
    by_cases hgT : g ∈ ticket_tags.toFinset
    · rw [Finset.insert_eq_self.mpr hgT]
    · rw [Finset.inter_insert_of_mem hgK, Finset.card_insert_of_not_mem hgT,
        Finset.card_insert_of_not_mem (fun h => hgT (Finset.mem_of_mem_inter_right h))]
      have hTpos : 0 < ticket_tags.toFinset.card :=
        Finset.card_pos.mpr (Finset.nonempty_iff_ne_empty.mpr hTe)
      have hle : (team.metadata.tags.toFinset ∩ ticket_tags.toFinset).card ≤
          ticket_tags.toFinset.card := Finset.card_le_card Finset.inter_subset_right
      apply mul_le_mul_of_nonneg_left _ (by norm_num)
      rw [div_le_div_iff₀ (by exact_mod_cast hTpos) (by positivity)]
      push_cast
      have hleQ : ((team.metadata.tags.toFinset ∩ ticket_tags.toFinset).card : ℚ) ≤
          (ticket_tags.toFinset.card : ℚ) := by exact_mod_cast hle
      nlinarith

/-- C9: for a fixed team, category and required skills, appending a tag
that belongs to the team's tag set never decreases the team match score,
including from an empty ticket tag set. -/
theorem C9_tag_monotonicity (team : TeamData) (category : String)
    (required_skills : RequiredSkills) (ticket_tags : List String) (g : String)
    (hg : g ∈ team.metadata.tags) :
    calculateTeamMatchScore team category required_skills ticket_tags ≤
      calculateTeamMatchScore team category required_skills (ticket_tags ++ [g]) := by
  rw [calculateTeamMatchScore_eq, calculateTeamMatchScore_eq]
  apply min_le_min _ le_rfl
  exact add_le_add_left (tagOverlapTerm_mono team ticket_tags g hg) _

/-- Witness for C9 at a concrete team carrying the appended tag. -/
theorem C9_witness :
    "password" ∈ c9Team.metadata.tags ∧
    calculateTeamMatchScore c9Team "Technical" c3Req ["reset"] ≤
      calculateTeamMatchScore c9Team "Technical" c3Req (["reset"] ++ ["password"]) :=
  ⟨by decide, C9_tag_monotonicity c9Team "Technical" c3Req ["reset"] "password" (by decide)⟩

/-- Helper: the Python max fold returns one of its candidates. -/
theorem pyMaxBySnd_mem (best : TeamData × ℚ) :
    ∀ l : List (TeamData × ℚ), pyMaxBySnd best l ∈ best :: l
  | [] => List.mem_cons_self _ _
  | x :: rest => by
    by_cases hc : best.2 < x.2
    · simp only [pyMaxBySnd, if_pos hc]
      exact List.mem_cons_of_mem best (pyMaxBySnd_mem x rest)
    · simp only [pyMaxBySnd, if_neg hc]
      rcases List.mem_cons.mp (pyMaxBySnd_mem best rest) with h | h
      · rw [h]
        exact List.mem_cons_self _ _
      · exact List.mem_cons_of_mem _ (List.mem_cons_of_mem _ h)

/-- Helper: the Python max fold dominates every candidate's score. -/
theorem pyMaxBySnd_le (best : TeamData × ℚ) :
    ∀ l : List (TeamData × ℚ), ∀ x ∈ best :: l, x.2 ≤ (pyMaxBySnd best l).2
  | [] => by
    intro x hx
    rcases List.mem_cons.mp hx with h | h
    · exact h ▸ le_refl _
    · simp at h
  | y :: rest => by
    intro x hx
    by_cases hc : best.2 < y.2
    · simp only [pyMaxBySnd, if_pos hc]
      rcases List.mem_cons.mp hx with h | h
      · exact h ▸ le_trans (le_of_lt hc)
          (pyMaxBySnd_le y rest y (List.mem_cons_self _ _))
      · exact pyMaxBySnd_le y rest x h
    · simp only [pyMaxBySnd, if_neg hc]
      rcases List.mem_cons.mp hx with h | h
      · exact pyMaxBySnd_le best rest x (h ▸ List.mem_cons_self _ _)
      · rcases List.mem_cons.mp h with h2 | h2
        · subst h2
          exact le_trans (not_lt.mp hc)
            (pyMaxBySnd_le best rest best (List.mem_cons_self _ _))
        · exact pyMaxBySnd_le best rest x (List.mem_cons_of_mem _ h2)

/-- C4 (amended): without the auto-resolution override the router scores
every team and returns a team of the list carrying a maximal score (the
first such team); there is no low-score floor, so the default team at
score 0.5 appears only on the error path (in particular for an empty
team list). -/
theorem C4_router_returns_first_max (teams : List TeamData) (category : String)
    (required_skills : RequiredSkills) (ticket_tags : List String)
    (hne : teams ≠ []) :
    (determineRoutingTeam teams category required_skills ticket_tags false).1 ∈ teams ∧
    (determineRoutingTeam teams category required_skills ticket_tags false).2 =
      calculateTeamMatchScore
        (determineRoutingTeam teams category required_skills ticket_tags false).1
        category required_skills ticket_tags ∧
    ∀ tm ∈ teams, calculateTeamMatchScore tm category required_skills ticket_tags ≤
      (determineRoutingTeam teams category required_skills ticket_tags false).2 := by
  cases teams with
  | nil => exact absurd rfl hne
  | cons t0 rest =>
    have hroute : determineRoutingTeam (t0 :: rest) category required_skills ticket_tags false =
        pyMaxBySnd (t0, calculateTeamMatchScore t0 category required_skills ticket_tags)
          (scoreTeams rest category required_skills ticket_tags) := rfl
    have hmem := pyMaxBySnd_mem
      (t0, calculateTeamMatchScore t0 category required_skills ticket_tags)
      (scoreTeams rest category required_skills ticket_tags)
    have hmem2 : pyMaxBySnd (t0, calculateTeamMatchScore t0 category required_skills ticket_tags)
        (scoreTeams rest category required_skills ticket_tags) ∈
        scoreTeams (t0 :: rest) category required_skills ticket_tags := hmem
    rw [hroute]
    obtain ⟨tm, htm, heq⟩ := List.mem_map.mp hmem2
    refine ⟨?_, ?_, ?_⟩
    · rw [← heq]
      exact htm
    · rw [← heq]
    · intro tm2 htm2
      have hmm : (tm2, calculateTeamMatchScore tm2 category required_skills ticket_tags) ∈
          scoreTeams (t0 :: rest) category required_skills ticket_tags :=
        List.mem_map.mpr ⟨tm2, htm2, rfl⟩
      exact pyMaxBySnd_le _ _
        (tm2, calculateTeamMatchScore tm2 category required_skills ticket_tags) hmm

/-- Counterexample for C4: a single team scoring 0 (below the claimed 0.3
floor) is still returned at its own score; the router does not fall back
to the default team at 0.5. -/
theorem C4_counterexample :
    calculateTeamMatchScore c4Team "billing" c4Req [] < 0.3 ∧
    determineRoutingTeam [c4Team] "billing" c4Req [] false =
      (c4Team, calculateTeamMatchScore c4Team "billing" c4Req []) ∧
    determineRoutingTeam [c4Team] "billing" c4Req [] false ≠
      (TeamData.getDefaultTeam, 0.5) := by
  have hscore : calculateTeamMatchScore c4Team "billing" c4Req [] = 0 := by
    rw [calculateTeamMatchScore_eq]
    have h1 : focusAreaTerm c4Team "billing" = 0 := by
      unfold focusAreaTerm
      rw [if_neg (by decide), if_neg (by decide)]
    have h2 : skillsTerm c4Team c4Req = 0 := by
      simp only [skillsTerm]
      rw [if_neg (by decide)]
    have h3 : technicalLevelTerm c4Team c4Req = 0 := by
      unfold technicalLevelTerm
      rw [if_neg (by decide)]
    have h4 : tagOverlapTerm c4Team [] = 0 := by
      simp only [tagOverlapTerm]
      rw [if_neg (by decide)]
    rw [h1, h2, h3, h4]
    norm_num
  have hroute : determineRoutingTeam [c4Team] "billing" c4Req [] false =
      (c4Team, calculateTeamMatchScore c4Team "billing" c4Req []) := rfl
  refine ⟨by rw [hscore]; norm_num, hroute, ?_⟩
  intro h
  rw [hroute] at h
  exact (by decide : c4Team ≠ TeamData.getDefaultTeam) (congrArg Prod.fst h)

/-- Witness for C4's amended statement on a singleton team list. -/
theorem C4_witness :
    ([c4Team] : List TeamData) ≠ [] ∧
    (determineRoutingTeam [c4Team] "billing" c4Req [] false).1 ∈ [c4Team] ∧
    ∀ tm ∈ [c4Team], calculateTeamMatchScore tm "billing" c4Req [] ≤
      (determineRoutingTeam [c4Team] "billing" c4Req [] false).2 := by
  have h := C4_router_returns_first_max [c4Team] "billing" c4Req [] (by simp)
  exact ⟨by simp, h.1, h.2.2⟩

/-- Counterexample for C1: with the retrieval stage raising, the flow run
surfaces the raised error rather than a completed fallback result. -/
theorem C1_counterexample :
    runFlow c1Env initializeStateD = .error "connection failed" ∧
    ∀ s : FlowState, runFlow c1Env initializeStateD ≠ .ok s := by
  have heq : runFlow c1Env initializeStateD = .error "connection failed" := rfl
  exact ⟨heq, fun s h => by rw [heq] at h; exact Except.noConfusion h⟩

/-- C1 (amended): an error raised in the retrieval stage, or in the
planning LLM call on the auto-resolution path, propagates out of the
pipeline unchanged; only the classify stage converts its internal errors
into the safe fallback decision (not auto-resolvable, needs more info,
default team), and the agent-level resolve_ticket converts an analysis
error into a failed result instead of raising. -/
theorem C1_error_propagation (env : FlowEnv) (s : FlowState) (e : String) :
    (env.retrieveOutcome = .error e → runFlow env s = .error e) ∧
    (∀ ts d, env.retrieveOutcome = .ok ts → env.classifyOutcome = .ok d →
      d.can_auto_resolve = true → env.planOutcome = .error e →
      runFlow env s = .error e) ∧
    (env.classifyOutcome = .error e →
      classifyTicketNode env = classifyFallback e ∧
      (classifyTicketNode env).can_auto_resolve = false ∧
      (classifyTicketNode env).needs_more_info = true ∧
      (classifyTicketNode env).routing_team = TeamData.getDefaultTeam) ∧
    (env.planOutcome = .error e →
      (resolveTicket env.toolMap (analyzeResolutionSteps env)).success = false ∧
      (resolveTicket env.toolMap (analyzeResolutionSteps env)).failure_reason = some e) := by
  refine ⟨?_, ?_, ?_, ?_⟩
  · intro h
    simp [runFlow, flowRetrieve, h]
  · intro ts d hr hc hcan hp
    simp [runFlow, flowRetrieve, hr, flowClassify, classifyTicketNode, hc, hcan, flowPlan,
      analyzeResolutionSteps, hp]
  · intro h
    have h1 : classifyTicketNode env = classifyFallback e := by
      simp [classifyTicketNode, h]
    rw [h1]
    exact ⟨rfl, rfl, rfl, rfl⟩
  · intro h
    have h1 : analyzeResolutionSteps env = .error e := by
      simp [analyzeResolutionSteps, h]
    rw [h1]
    exact ⟨rfl, rfl⟩

/-- Witness for C1's amended statement at the concrete failing-retrieval
environment. -/
theorem C1_witness :
    c1Env.retrieveOutcome = .error "connection failed" ∧
    runFlow c1Env initializeStateD = .error "connection failed" :=
  ⟨rfl, (C1_error_propagation c1Env initializeStateD "connection failed").1 rfl⟩

/-- Counterexample for C10: on a plan holding a single unknown-tool step
the flow neither skips the step nor finishes with success: the first
execute_step evaluates tool_name on a raw dict and the whole run
surfaces AttributeError instead of a finalized result. -/
theorem C10_counterexample :
    runFlow c10Env initializeStateD =
      .error "AttributeError: dict object has no attribute tool_name" ∧
    ∀ s : FlowState, runFlow c10Env initializeStateD ≠ .ok s := by
  have heq : runFlow c10Env initializeStateD =
      .error "AttributeError: dict object has no attribute tool_name" := rfl
  exact ⟨heq, fun s h => by rw [heq] at h; exact Except.noConfusion h⟩

/-- C10 (amended): the skip logic claimed of execute_step holds only under
structured ResolutionStep values (an unset or unregistered tool name
then appends nothing and only advances current_step); but the steps the
flow stores are raw analysis dicts, so the real node raises
AttributeError on every in-range step, and finalize_resolution raises
ValidationError whenever the classification carries an
auto_resolution_steps list (the list lands in the str-typed solution
field); consequently a run that classifies auto-resolvable and plans a
non-empty step list ends in AttributeError, never in a success=true
result. -/
theorem C10_dict_steps_and_validation :
    (∀ (env : FlowEnv) (s : FlowState) (h : s.current_step < s.steps.length),
      (s.steps[s.current_step].tool_name = none ∨
        ∀ nm, s.steps[s.current_step].tool_name = some nm →
          env.toolMap nm = none) →
      flowExecuteStepTyped env s = .ok
        (if s.current_step + 1 < s.steps.length then "continue" else "end",
          { s with current_step := s.current_step + 1 })) ∧
    (∀ (env : FlowEnv) (s : FlowState), s.current_step < s.steps.length →
      flowExecuteStep env s =
        .error "AttributeError: dict object has no attribute tool_name") ∧
    (∀ (s : FlowState) (d : ClassifyD) (l : List String), s.classification = some d →
      d.auto_resolution_steps = some l →
      finalizeResolution s = .error "ValidationError: solution: str type expected") ∧
    (∀ (env : FlowEnv) (s : FlowState) (ts : List SimilarTicketD) (d : ClassifyD)
      (a : AnalysisD), env.retrieveOutcome = .ok ts → env.classifyOutcome = .ok d →
      d.can_auto_resolve = true → env.planOutcome = .ok (some a) → a.steps ≠ [] →
      runFlow env s =
        .error "AttributeError: dict object has no attribute tool_name") := by
  refine ⟨?_, ?_, ?_, ?_⟩
  · intro env s h hcond
    rcases hcond with hnone | hunk
    · simp [flowExecuteStepTyped, dif_pos h, hnone]
    · cases hsome : s.steps[s.current_step].tool_name with
      | none => simp [flowExecuteStepTyped, dif_pos h, hsome]
      | some nm =>
        have hmap := hunk nm hsome
        simp [flowExecuteStepTyped, dif_pos h, hsome, hmap]
  · intro env s h
    simp [flowExecuteStep, h]
  · intro s d l hc hl
    simp [finalizeResolution, hc, hl]
  · intro env s ts d a hr hc hcan hp hne
    have hlen : 0 < a.steps.length := List.length_pos.mpr hne
    simp [runFlow, flowRetrieve, hr, flowClassify, classifyTicketNode, hc, hcan, flowPlan,
      analyzeResolutionSteps, hp, flowExecLoop, flowExecuteStep, hlen]

/-- Witness for C10's amended statement at the unknown-tool plan: the
typed dispatch would skip the step, the real node raises AttributeError,
finalize would raise ValidationError on this classification, and the
end-to-end run surfaces the AttributeError. -/
theorem C10_witness :
    (0 : ℕ) < c10FlowState.steps.length ∧
    (c10FlowState.steps.get ⟨0, by decide⟩).tool_name = some "no_such_tool" ∧
    c10Env.toolMap "no_such_tool" = none ∧
    flowExecuteStepTyped c10Env c10FlowState =
      .ok ("end", { c10FlowState with current_step := 0 + 1 }) ∧
    flowExecuteStep c10Env c10FlowState =
      .error "AttributeError: dict object has no attribute tool_name" ∧
    finalizeResolution c10FlowState =
      .error "ValidationError: solution: str type expected" := by
  refine ⟨by decide, rfl, rfl, ?_, ?_, ?_⟩
  · exact C10_dict_steps_and_validation.1 c10Env c10FlowState (by decide)
      (Or.inr (fun nm _ => rfl))
  · exact C10_dict_steps_and_validation.2.1 c10Env c10FlowState (by decide)
  · exact C10_dict_steps_and_validation.2.2.1 c10FlowState c10Classify
      ["Reset the password"] rfl rfl

/-- Witness for C6 at the concrete two-collection scenario: the bound and
sortedness hold, and a concrete returned entry meets the threshold. -/
theorem C6_witness :
    (retrievalFindSimilarTickets c8OpenHits c8ResolvedHits 3 0.7 true).length ≤ 3 ∧
    List.Pairwise (fun a b : SimEntry => b.similarity_score ≤ a.similarity_score)
      (retrievalFindSimilarTickets c8OpenHits c8ResolvedHits 3 0.7 true) ∧
    (⟨"t1", "printer issue", 0.9⟩ : SimEntry) ∈
      retrievalFindSimilarTickets c8OpenHits c8ResolvedHits 3 0.7 true ∧
    (0.7 : ℚ) ≤ (⟨"t1", "printer issue", 0.9⟩ : SimEntry).similarity_score := by
  have H := C6_retrieval_threshold_sorted_bounded c8OpenHits c8ResolvedHits 3 0.7 true
  have hmem : (⟨"t1", "printer issue", 0.9⟩ : SimEntry) ∈
      retrievalFindSimilarTickets c8OpenHits c8ResolvedHits 3 0.7 true := by
    simp only [retrievalFindSimilarTickets, c8_open_eval, c8_resolved_eval, if_true]
    rw [List.take_of_length_le (by rw [(List.mergeSort_perm _ _).length_eq]; norm_num)]
    exact ((List.mergeSort_perm _ simDescBool).mem_iff).mpr (by simp)
  exact ⟨H.2.2, H.2.1, hmem, H.1 _ hmem⟩
